import Mathlib

/-!
Verification of the cemconv COLLADA exporter (`src/collada_export.rs`).

The Rust module converts an in-memory CEM scene (`Scene<V2>`) into a COLLADA
document string.  This file gives a shallow embedding of the exporter's data
model and of the pieces of `convert`, `write_meshes`, `Light::from_str` and
`Geometry::fmt` that the verified properties are about.

Conventions of the embedding:
* Rust `f32` values are modelled as exact rationals (`ℚ`) wherever the code
  performs only ring operations; the vector-normalization path, which takes a
  square root, is modelled over the reals (`ℝ`).
* Rust `u32` is modelled as `Nat` (the exporter never relies on wrap-around;
  `u32::from_str`'s range check is modelled explicitly with `2 ^ 32`).
* Rust slice indexing, which panics out of range, is modelled with `List.getD`
  / `List.set` (a no-op out of range); under the documented §3 input
  invariants every access is in range, so the two agree on valid input.
* Strings are processed through their character lists (`String.data`), and
  Rust's `str::split('_')` is modelled by `splitUnderscore` below.
-/

namespace Cemconv

/-- Rust's `str::split('_')` on a character list: `n` underscores yield
`n + 1` tokens, empty tokens included (`"".split` yields one empty token). -/
def splitUnderscore (l : List Char) : List (List Char) :=
  match l with
  | [] => [[]]
  | '_' :: rest => [] :: splitUnderscore rest
  | c :: rest =>
    match splitUnderscore rest with
    | [] => [[c]]
    | h :: t => (c :: h) :: t

/-- Numeric value of a digit string, most significant digit first. -/
def digitsToNat (l : List Char) : Nat :=
  l.foldl (fun acc c => acc * 10 + (c.toNat - ('0').toNat)) 0

/-- Rust's `str::parse::<u32>`: an optional leading `'+'`, then one or more
ASCII digits, and the value must fit in 32 bits; anything else is an error. -/
def parseU32 (l : List Char) : Option Nat :=
  let digits := match l with
    | '+' :: rest => rest
    | _ => l
  if digits.isEmpty then none
  else if digits.all (fun c => c.isDigit) then
    let n := digitsToNat digits
    if n < 2 ^ 32 then some n else none
  else none

/-- `Light` from `collada_export.rs` lines 88-91: a decoded point light,
color channels as exact rationals, `unk` the three opaque parameters. -/
structure Light where
  color : ℚ × ℚ × ℚ
  unk : Nat × Nat × Nat
deriving DecidableEq, Repr

/-- `Light::from_str` (lines 96-132): take seven tokens of the `'_'`-split
of the name (the first is consumed unchecked, later ones are ignored), parse
the six fields as `u32`, normalize the first three by 255. -/
def light_from_str (definition : String) : Except String Light :=
  match splitUnderscore definition.data with
  | _ :: r :: g :: b :: i :: j :: k :: _ =>
    match parseU32 r, parseU32 g, parseU32 b, parseU32 i, parseU32 j, parseU32 k with
    | some nr, some ng, some nb, some ni, some nj, some nk =>
      .ok { color := ((nr : ℚ) / 255, (ng : ℚ) / 255, (nb : ℚ) / 255),
            unk := (ni, nj, nk) }
    | _, _, _, _, _, _ => .error ("failed to parse number")
  | _ => .error ("Invalid light definition")

/-! ## The CEM data model (crate `cem`, types `Scene<V2>` / `v2`, §3 of the
design document), restricted to the fields `collada_export.rs` reads. -/

/-- One triangle: three vertex-local `u32` indices (`triangle.0/.1/.2`). -/
structure Triangle where
  a : Nat
  b : Nat
  c : Nat
deriving DecidableEq, Repr

/-- A material's per-LOD range into the triangle sequence. -/
structure TriangleSlice where
  offset : Nat
  len : Nat
deriving DecidableEq, Repr

/-- `v2::Material`, with the fields destructured at line 140. -/
structure Material where
  name : String
  texture : Nat
  triangles : List TriangleSlice
  vertex_offset : Nat
  vertex_count : Nat
  texture_name : String
deriving DecidableEq, Repr

/-- A vertex: position, normal (not necessarily unit), texture coordinate. -/
structure Vertex where
  position : ℚ × ℚ × ℚ
  normal : ℚ × ℚ × ℚ
  texture : ℚ × ℚ
deriving DecidableEq, Repr

/-- One animation frame: per-frame vertex attributes and tag-point positions. -/
structure Frame where
  vertices : List Vertex
  tag_points : List (ℚ × ℚ × ℚ)
deriving DecidableEq, Repr

/-- `V2`: the model, with the fields `collada_export.rs` reads. -/
structure Model where
  lod_levels : List (List Triangle)
  materials : List Material
  frames : List Frame
  tag_points : List String
deriving DecidableEq, Repr

/-! ## Geometry Builder (`write_meshes`, lines 136-190) -/

/-- `Matrix4::from_angle_x(Deg(-90.0))` applied to a 3-vector (exactly:
`(x, y, z) ↦ (x, z, -y)`); lines 170-174 apply it to positions and normals,
line 277-280 to tag-point positions. -/
def rot_point {α : Type} [Neg α] (v : α × α × α) : α × α × α :=
  (v.1, v.2.2, -v.2.1)

/-- Write one triangle's three output indices into the flattened buffer at
slots `idx*3 + {0,1,2}` (lines 147-155). -/
def writeTriangle (vertex_offset : Nat) (t : Triangle) (idx : Nat)
    (polys : List Nat) : List Nat :=
  ((polys.set (idx * 3) (vertex_offset + t.a)).set (idx * 3 + 1)
      (vertex_offset + t.b)).set (idx * 3 + 2) (vertex_offset + t.c)

/-- One material's pass over its LOD-0 slice (lines 140-157): for each local
index in `0..len`, read the triangle at `offset + index` and write its three
indices at the triangle's absolute position. -/
def materialWrite (tris : List Triangle) (polys : List Nat) (mat : Material) :
    List Nat :=
  let slice := mat.triangles.getD 0 ⟨0, 0⟩
  (List.range slice.len).foldl
    (fun p i =>
      let idx := i + slice.offset
      writeTriangle mat.vertex_offset (tris.getD idx ⟨0, 0, 0⟩) idx p) polys

/-- The flattened index buffer (lines 137-157): allocated zeroed with length
`3 × |lod_levels[0]|`, then filled by every material's LOD-0 slice. -/
def build_polygons (m : Model) : List Nat :=
  let tris := m.lod_levels.getD 0 []
  m.materials.foldl (materialWrite tris) (List.replicate (tris.length * 3) 0)

/-- Transformed vertex position (line 174):
`Point3::from_homogeneous(transform * position.to_homogeneous())` with `w = 1`
is exactly the rotation applied to the point. -/
def vertex_position_out (v : Vertex) : ℚ × ℚ × ℚ :=
  rot_point v.position

/-- Squared Euclidean norm of a real 3-vector. -/
def sqNorm (v : ℝ × ℝ × ℝ) : ℝ :=
  v.1 ^ 2 + v.2.1 ^ 2 + v.2.2 ^ 2

/-- `cgmath`'s `normalize`: the vector scaled by the reciprocal of its
magnitude (idealized over `ℝ`). -/
noncomputable def normalize3 (v : ℝ × ℝ × ℝ) : ℝ × ℝ × ℝ :=
  (v.1 / Real.sqrt (sqNorm v), v.2.1 / Real.sqrt (sqNorm v),
    v.2.2 / Real.sqrt (sqNorm v))

/-- Transformed vertex normal (line 173): normalize, then rotate
(`(transform * normal.normalize().extend(0.0)).truncate()`). -/
noncomputable def vertex_out_normal (v : Vertex) : ℝ × ℝ × ℝ :=
  rot_point (normalize3 ((v.normal.1 : ℝ), (v.normal.2.1 : ℝ), (v.normal.2.2 : ℝ)))

/-- The `mesh_positions` array of one frame (lines 164, 176-178): slots
`index*3 + {0,1,2}` hold the rotated position of vertex `index`. -/
def mesh_positions_of (f : Frame) : List ℚ :=
  f.vertices.flatMap fun v =>
    [(vertex_position_out v).1, (vertex_position_out v).2.1,
      (vertex_position_out v).2.2]

/-- The `mesh_normals` array of one frame (lines 165, 180-182). -/
noncomputable def mesh_normals_of (f : Frame) : List ℝ :=
  f.vertices.flatMap fun v =>
    [(vertex_out_normal v).1, (vertex_out_normal v).2.1,
      (vertex_out_normal v).2.2]

/-- The `mesh_map` array of one frame (lines 166, 184-185): slots
`index*2 + {0,1}` hold `(u, 1 - v)` for vertex `index`. -/
def mesh_map_of (f : Frame) : List ℚ :=
  f.vertices.flatMap fun v => [v.texture.1, 1 - v.texture.2]

/-- The `Geometry` struct (lines 27-38). -/
structure Geometry where
  name : String
  mesh_positions : List ℚ
  mesh_normals : List ℝ
  mesh_map : List ℚ
  polygons : List Nat

/-- The `Geometry` record built for frame `idx` (lines 159-186): frame 0
keeps the base name, later frames get `"<name>_frame<idx>"`; `polygons` is a
clone of the one flattened buffer. -/
noncomputable def frame_geometry (name : String) (m : Model) (idx : Nat)
    (fr : Frame) : Geometry :=
  { name := if idx > 0 then name ++ "_frame" ++ toString idx else name
    mesh_positions := mesh_positions_of fr
    mesh_normals := mesh_normals_of fr
    mesh_map := mesh_map_of fr
    polygons := build_polygons m }

/-- All geometry records `write_meshes` emits, in frame order (line 159). -/
noncomputable def write_meshes_geometries (name : String) (m : Model) :
    List Geometry :=
  m.frames.enum.map fun p => frame_geometry name m p.1 p.2

/-- The index stream of the `<p>` element (`Geometry::fmt` lines 74-78):
each stored index is written three times (`"{0} {0} {0} "`), once for each
of the `VERTEX` / `NORMAL` / `TEXCOORD` input channels. -/
def p_indices (polys : List Nat) : List Nat :=
  polys.flatMap fun i => [i, i, i]

/-! ## Scene Assembler (`convert`, lines 192-299)

The document pieces whose text is fully literal are modelled as strings.
Floating-point values rendered with a `{...}` directive cannot be modelled as
literal text (Rust's float `Display` is shortest-round-trip); such emissions
are kept as tagged tokens (`Out.fd`), recording the value and the fact that
the default format — not the 8-digit `{:.8}` format — is used. -/

/-- The format directive used for one floating-point emission: `fixed8` for
`"{:.8}"`, `display` for a plain `"{}"`. -/
inductive FloatFmt
  | fixed8
  | display
deriving DecidableEq, Repr

/-- One token of emitted document text: literal text, or one default-formatted
floating-point value. -/
inductive Out
  | lit : String → Out
  | fd : ℚ → Out
deriving DecidableEq, Repr

/-- `name.starts_with("light_")` (line 207). -/
def starts_with_light (name : String) : Bool :=
  ("light_").data.isPrefixOf name.data

/-- The fallback point element (line 220). -/
def default_point_element : String :=
  "    <point><color>1.0 1.0 1.0</color><linear_attenuation>0.3</linear_attenuation></point>\n"

/-- The closing text of one light entry (lines 212 / 221). -/
def light_close : String :=
  "    </technique_common></light>\n"

/-- The per-tag-point light entry (lines 203-222): header, then either the
decoded color (three `{}`-formatted floats) or the fallback element; the
`Bool` records whether the decode-failure warning was printed to stderr
(line 216). -/
def light_entry_events (name : String) : List Out × Bool :=
  let header := Out.lit ("    <light id=\"" ++ name ++ "-light\"><technique_common>\n\n")
  if starts_with_light name then
    match light_from_str name with
    | .ok l =>
      ([header, Out.lit ("    <point><color>"), Out.fd l.color.1,
        Out.lit (" "), Out.fd l.color.2.1, Out.lit (" "), Out.fd l.color.2.2,
        Out.lit ("</color><linear_attenuation>0.3</linear_attenuation></point>\n\n"),
        Out.lit light_close], false)
    | .error _ =>
      ([header, Out.lit default_point_element, Out.lit light_close], true)
  else
    ([header, Out.lit default_point_element, Out.lit light_close], false)

/-- The body of `library_lights` (loop at line 203): the entries of every
tag point, concatenated in order. -/
def lights_library_events (names : List String) : List Out :=
  names.flatMap fun n => (light_entry_events n).1

/-! ### Controller Builder (lines 226-269) -/

/-- The IDREF identifiers written by the loop at lines 239-241, one per frame
index in `1..n`: `"<name>_frame<i>-mesh"`. -/
def morph_target_ids (name : String) (n : Nat) : List String :=
  (List.range' 1 (n - 1)).map fun i => name ++ "_frame" ++ toString i ++ "-mesh"

/-- The weight entries written by the loop at lines 252-254: the literal
`"0 "` once per frame index in `1..n`. -/
def morph_weights (n : Nat) : List String :=
  (List.range' 1 (n - 1)).map fun _ => "0 "

/-- The morph controller block (lines 232-266), emitted when `frames.len() > 1`. -/
def controller_block (name : String) (n : Nat) : String :=
  "    <controller id=\"" ++ name ++ "-morph\" name=\"" ++ name ++ "-morph\">\n" ++
  "      <morph source=\"#" ++ name ++ "-mesh\" method=\"NORMALIZED\">\n" ++
  "        <source id=\"" ++ name ++ "-targets\">\n" ++
  "          <IDREF_array id=\"" ++ name ++ "-targets-array\" count=\"" ++ toString (n - 1) ++ "\">\n" ++
  String.join ((morph_target_ids name n).map fun id => "            " ++ id ++ "\n") ++
  "          </IDREF_array>\n" ++
  "<technique_common><accessor source=\"#" ++ name ++ "-targets-array\" count=\"" ++ toString (n - 1) ++
    "\" stride=\"1\"><param name=\"IDREF\" type=\"IDREF\"/></accessor></technique_common>\n" ++
  "        </source>\n" ++
  "        <source id=\"" ++ name ++ "-weights\">\n" ++
  "          <float_array id=\"" ++ name ++ "-weights-array\" count=\"" ++ toString (n - 1) ++ "\">" ++
  String.join (morph_weights n) ++
  "</float_array>\n" ++
  "<technique_common><accessor source=\"#" ++ name ++ "-weights-array\" count=\"" ++ toString (n - 1) ++
    "\" stride=\"1\"><param name=\"MORPH_WEIGHT\" type=\"float\"/></accessor></technique_common>\n" ++
  "        </source>\n" ++
  "        <targets>\n" ++
  "          <input semantic=\"MORPH_TARGET\" source=\"#" ++ name ++ "-targets\"/>\n" ++
  "          <input semantic=\"MORPH_WEIGHT\" source=\"#" ++ name ++ "-weights\"/>\n" ++
  "        </targets>\n" ++
  "      </morph>\n" ++
  "    </controller>\n"

/-- The whole `library_controllers` section (lines 226-269): open tag, the
controller block only when `n > 1`, close tag. -/
def library_controllers (name : String) (n : Nat) : String :=
  "  <library_controllers>\n" ++
  (if n > 1 then controller_block name n else "") ++
  "  </library_controllers>\n"

/-! ### Visual scene (lines 271-292) -/

/-- `frames[0].tag_points`; the source indexes `frames[0]` directly (a panic
when `frames` is empty — unreachable under §3's `frames.len() ≥ 1`); the
model returns the empty list there. -/
def frame0_tag_points (m : Model) : List (ℚ × ℚ × ℚ) :=
  match m.frames with
  | [] => []
  | f :: _ => f.tag_points

/-- The child nodes of the root visual-scene node (lines 279-286): the zip of
tag-point names with frame-0 tag-point positions — truncating to the shorter
of the two — each node carrying its name and rotated translate vector. -/
def visual_scene_child_nodes (m : Model) : List (String × (ℚ × ℚ × ℚ)) :=
  (m.tag_points.zip (frame0_tag_points m)).map fun p => (p.1, rot_point p.2)

/-! ### Floating-point format directives

`convert_float_formats` lists, in document order, the format directive of
every floating-point value the document writes through a format directive:
the geometry `float_array` values (`"{:.8} "`, line 53), the decoded light
color components (`"{} {} {}"`, line 211), and the translate components
(`"{} {} {}"`, line 283).  The fallback light color (line 220), the identity
matrix (line 274) and the morph weights (line 253) are literal text. -/

/-- Formats of one geometry's three `float_array`s: every element of every
array is written `"{:.8} "` by `write_source` (lines 48-64). -/
def geometry_float_formats (g : Geometry) : List FloatFmt :=
  List.replicate
    (g.mesh_positions.length + g.mesh_normals.length + g.mesh_map.length)
    FloatFmt.fixed8

/-- Formats of one light entry's floats: three `{}` floats when the name
decodes, none otherwise (the fallback color is literal text). -/
def light_float_formats (name : String) : List FloatFmt :=
  if starts_with_light name then
    match light_from_str name with
    | .ok _ => [FloatFmt.display, FloatFmt.display, FloatFmt.display]
    | .error _ => []
  else []

/-- Formats of the translate components: three `{}` floats per child node
(line 283). -/
def translate_float_formats (m : Model) : List FloatFmt :=
  (visual_scene_child_nodes m).flatMap fun _ =>
    [FloatFmt.display, FloatFmt.display, FloatFmt.display]

/-- Every format-directive-rendered float of the document, in order. -/
noncomputable def convert_float_formats (name : String) (m : Model) :
    List FloatFmt :=
  ((write_meshes_geometries name m).flatMap geometry_float_formats) ++
  (m.tag_points.flatMap light_float_formats) ++
  translate_float_formats m

/-- One entry per tag point: the `library_lights` loop (line 203) visits every
name of `model.tag_points`, emitting exactly one light element for each. -/
def lights_library_entries (m : Model) : List (List Out × Bool) :=
  m.tag_points.map light_entry_events

/-! ## Concrete instances used to instantiate the verified properties -/

/-- Default vertex used with `List.getD`. -/
def default_vertex : Vertex :=
  { position := (0, 0, 0), normal := (0, 0, 0), texture := (0, 0) }

/-- Default geometry record used with `List.getD`. -/
def default_geometry : Geometry :=
  { name := "", mesh_positions := [], mesh_normals := [], mesh_map := [],
    polygons := [] }

/-- A vertex with a non-unit normal and an off-center texture coordinate. -/
def demoVertex : Vertex :=
  { position := (1, 2, 3), normal := (0, 0, 2), texture := (1 / 2, 1 / 4) }

/-- A frame holding `demoVertex` and one tag-point position. -/
def demoFrame : Frame :=
  { vertices := [demoVertex], tag_points := [(1, 2, 3)] }

/-- A two-frame model with one material, one LOD-0 triangle, and two tag
points (one light-encoded, one plain); its two tag-point name entries exceed
the single per-frame tag-point position, exercising the zip truncation. -/
def demoModel : Model :=
  { lod_levels := [[⟨0, 1, 2⟩]]
    materials := [{ name := "mat", texture := 0, triangles := [⟨0, 1⟩],
                    vertex_offset := 5, vertex_count := 3, texture_name := "t" }]
    frames := [demoFrame, demoFrame]
    tag_points := ["light_255_0_0_1_2_3", "anchor_muzzle"] }

/-- A geometry record with a two-entry index buffer. -/
def demoGeometry : Geometry :=
  { name := "g", mesh_positions := [], mesh_normals := [], mesh_map := [],
    polygons := [5, 7] }

/-! ## Verified properties -/

/-- C7: whenever the six fields of the `'_'`-split parse as integers
`r, g, b, i, j, k`, `Light::from_str` succeeds with color
`(r/255, g/255, b/255)` and carries `(i, j, k)` through unmodified. -/
theorem light_from_str_success (s : String) (t0 r g b i j k : List Char)
    (rest : List (List Char)) (nr ng nb ni nj nk : Nat)
    (hsplit : splitUnderscore s.data = t0 :: r :: g :: b :: i :: j :: k :: rest)
    (hr : parseU32 r = some nr) (hg : parseU32 g = some ng)
    (hb : parseU32 b = some nb) (hi : parseU32 i = some ni)
    (hj : parseU32 j = some nj) (hk : parseU32 k = some nk) :
    light_from_str s =
      .ok { color := ((nr : ℚ) / 255, (ng : ℚ) / 255, (nb : ℚ) / 255),
            unk := (ni, nj, nk) } := by
  simp only [light_from_str, hsplit, hr, hg, hb, hi, hj, hk]

/-- Witness for C7: `decode("light_255_0_0_1_2_3")` yields color
`(1.0, 0.0, 0.0)` and opaque params `(1, 2, 3)`. -/
theorem light_from_str_success_witness :
    light_from_str ("light_255_0_0_1_2_3") =
      .ok { color := (1, 0, 0), unk := (1, 2, 3) } := by
  have h := light_from_str_success ("light_255_0_0_1_2_3")
      (("light").data) (("255").data) (("0").data) (("0").data)
      (("1").data) (("2").data) (("3").data) [] 255 0 0 1 2 3
      (by decide) (by decide) (by decide) (by decide) (by decide) (by decide)
      (by decide)
  rw [h]
  simp only [Except.ok.injEq, Light.mk.injEq, Prod.mk.injEq]
  norm_num

/-- C1 (counterexample): `Light::from_str` accepts `"x_1_2_3_4_5_6_7"`, whose
first token is not the literal `"light"` and which has eight tokens rather
than seven, so decoding does not require the literal first token or exactly
six following fields. -/
theorem light_from_str_accepts_nonlight :
    (light_from_str ("x_1_2_3_4_5_6_7")).isOk = true ∧
    (splitUnderscore ("x_1_2_3_4_5_6_7").data).headD [] ≠ ("light").data ∧
    (splitUnderscore ("x_1_2_3_4_5_6_7").data).length ≠ 7 := by
  decide

/-- C1 (amended): `Light::from_str` succeeds exactly when the `'_'`-split of
the string has at least seven tokens whose tokens 2–7 each parse as `u32`;
the first token is consumed but never compared against `"light"` and tokens
past the seventh are ignored.  Fewer than seven tokens yield the error
`"Invalid light definition"`, and a parse failure among the six fields the
error `"failed to parse number"`. -/
theorem light_from_str_shape (s : String) :
    ((splitUnderscore s.data).length < 7 →
      light_from_str s = .error ("Invalid light definition")) ∧
    (∀ t0 r g b i j k rest,
      splitUnderscore s.data = t0 :: r :: g :: b :: i :: j :: k :: rest →
      (((light_from_str s).isOk = true) ↔
        ((parseU32 r).isSome = true ∧ (parseU32 g).isSome = true ∧
         (parseU32 b).isSome = true ∧ (parseU32 i).isSome = true ∧
         (parseU32 j).isSome = true ∧ (parseU32 k).isSome = true)) ∧
      (¬((parseU32 r).isSome = true ∧ (parseU32 g).isSome = true ∧
         (parseU32 b).isSome = true ∧ (parseU32 i).isSome = true ∧
         (parseU32 j).isSome = true ∧ (parseU32 k).isSome = true) →
        light_from_str s = .error ("failed to parse number"))) := by
  constructor
  · intro hlen
    rcases hl : splitUnderscore s.data with _ | ⟨t0, _ | ⟨r, _ | ⟨g, _ |
      ⟨b, _ | ⟨i, _ | ⟨j, _ | ⟨k, rest⟩⟩⟩⟩⟩⟩⟩ <;>
      simp only [light_from_str, hl] <;>
      first
        | rfl
        | (rw [hl] at hlen; simp only [List.length_cons] at hlen; omega)
  · intro t0 r g b i j k rest hsplit
    simp only [light_from_str, hsplit]
    cases hr : parseU32 r <;> cases hg : parseU32 g <;>
      cases hb : parseU32 b <;> cases hi : parseU32 i <;>
      cases hj : parseU32 j <;> cases hk : parseU32 k <;>
      simp [Except.isOk, Except.toBool]

/-- Witness for the amended C1: a name with too few tokens yields the
"Invalid light definition" error, and a name with seven tokens but a
non-numeric field yields the "failed to parse number" error. -/
theorem light_from_str_shape_witness :
    light_from_str ("light") = .error ("Invalid light definition") ∧
    light_from_str ("light_a_0_0_1_2_3") = .error ("failed to parse number") :=
  ⟨(light_from_str_shape ("light")).1 (by decide),
   ((light_from_str_shape ("light_a_0_0_1_2_3")).2 (("light").data)
      (("a").data) (("0").data) (("0").data) (("1").data) (("2").data)
      (("3").data) [] (by decide)).2 (by decide)⟩

/-- C2: with `n ≤ 1` frames the `library_controllers` section is exactly its
open and close tags; with `n > 1` frames the section differs from the empty
one, the `IDREF_array` holds exactly `n - 1` identifiers, the one at position
`idx` being `"<name>_frame<idx+1>-mesh"`, and the weight array holds exactly
`n - 1` entries, each the literal `"0 "`. -/
theorem controller_iff_multiframe (name : String) (n : Nat) :
    (n ≤ 1 → library_controllers name n =
      "  <library_controllers>\n" ++ "  </library_controllers>\n") ∧
    (1 < n →
      library_controllers name n ≠
        "  <library_controllers>\n" ++ "  </library_controllers>\n" ∧
      (morph_target_ids name n).length = n - 1 ∧
      (∀ idx, idx < n - 1 →
        (morph_target_ids name n).getD idx "" =
          name ++ "_frame" ++ toString (idx + 1) ++ "-mesh") ∧
      morph_weights n = List.replicate (n - 1) ("0 ")) := by
  constructor
  · intro hle
    have : ¬ n > 1 := by omega
    simp [library_controllers, this]
  · intro hgt
    refine ⟨?_, ?_, ?_, ?_⟩
    · intro heq
      have hlen := congrArg String.length heq
      simp only [library_controllers, if_pos hgt, controller_block,
        String.length_append] at hlen
      have h20 : ("    <controller id=\"").length = 20 := rfl
      omega
    · simp [morph_target_ids]
    · intro idx hidx
      have hbound : idx < (morph_target_ids name n).length := by
        simp [morph_target_ids]; omega
      rw [List.getD_eq_getElem _ _ hbound]
      simp [morph_target_ids, Nat.add_comm]
    · simp [morph_weights, List.map_const']

/-- Witness for C2: with one frame the controller section is the bare tags;
with three frames the targets list has two identifiers, frame 1's and
frame 2's meshes, and the weights are two zero entries. -/
theorem controller_iff_multiframe_witness :
    library_controllers ("Scene_Root") 1 =
      "  <library_controllers>\n" ++ "  </library_controllers>\n" ∧
    (morph_target_ids ("Scene_Root") 3).getD 0 "" = "Scene_Root_frame1-mesh" ∧
    (morph_target_ids ("Scene_Root") 3).getD 1 "" = "Scene_Root_frame2-mesh" ∧
    morph_weights 3 = [("0 "), ("0 ")] := by
  have h1 := (controller_iff_multiframe ("Scene_Root") 1).1 (by decide)
  have h3 := (controller_iff_multiframe ("Scene_Root") 3).2 (by decide)
  refine ⟨h1, ?_, ?_, ?_⟩
  · have := h3.2.2.1 0 (by decide)
    simpa using this
  · have := h3.2.2.1 1 (by decide)
    simpa using this
  · rw [h3.2.2.2]
    decide

/-- C3: for a tag-point name that does not begin with `"light_"`, or begins
with it but fails to decode, the emitted light entry is the default point
light — the literal fallback element with color `1.0 1.0 1.0` and
linear_attenuation `0.3` — the decode failure is reported only as the stderr
warning (exactly when the name is light-prefixed), and the lights loop
processes every name: an entry before and after the offending one is emitted
unchanged, so conversion runs to completion. -/
theorem light_fallback_default (name : String)
    (h : starts_with_light name = false ∨ (light_from_str name).isOk = false) :
    (light_entry_events name).1 =
      [Out.lit ("    <light id=\"" ++ name ++ "-light\"><technique_common>\n\n"),
       Out.lit default_point_element, Out.lit light_close] ∧
    (light_entry_events name).2 = starts_with_light name ∧
    (∀ pre post : List String,
      lights_library_events (pre ++ name :: post) =
        lights_library_events pre ++ (light_entry_events name).1 ++
          lights_library_events post) := by
  refine ⟨?_, ?_, ?_⟩
  · cases hsw : starts_with_light name with
    | false => simp [light_entry_events, hsw]
    | true =>
      cases hfs : light_from_str name with
      | ok l =>
        exfalso
        rcases h with h | h
        · rw [hsw] at h; exact Bool.false_ne_true h.symm
        · rw [hfs] at h; exact Bool.false_ne_true h.symm
      | error e => simp [light_entry_events, hsw, hfs]
  · cases hsw : starts_with_light name with
    | false => simp [light_entry_events, hsw]
    | true =>
      cases hfs : light_from_str name with
      | ok l =>
        exfalso
        rcases h with h | h
        · rw [hsw] at h; exact Bool.false_ne_true h.symm
        · rw [hfs] at h; exact Bool.false_ne_true h.symm
      | error e => simp [light_entry_events, hsw, hfs]
  · intro pre post
    simp [lights_library_events, List.flatMap_append]

/-- Witness for C3: `"light_bad"` is light-prefixed but fails to decode; its
entry is the default element and the warning is logged. -/
theorem light_fallback_default_witness :
    (light_entry_events ("light_bad")).1 =
      [Out.lit ("    <light id=\"light_bad-light\"><technique_common>\n\n"),
       Out.lit default_point_element, Out.lit light_close] ∧
    (light_entry_events ("light_bad")).2 = true := by
  have h := light_fallback_default ("light_bad") (Or.inr (by decide))
  constructor
  · rw [h.1]
    decide
  · rw [h.2.1]
    decide

/-- C10: when the tag-point name list and frame 0's tag-point position list
have different lengths, the visual-scene assembly still yields a value (the
zip truncates instead of indexing out of range): it emits exactly
`min` of the two lengths child light nodes, while the lights library emits
one entry per name of `model.tag_points`. -/
theorem tag_point_mismatch_truncates (m : Model) (f0 : Frame)
    (rest : List Frame) (hf : m.frames = f0 :: rest)
    (hne : m.tag_points.length ≠ f0.tag_points.length) :
    (visual_scene_child_nodes m).length =
      min m.tag_points.length f0.tag_points.length ∧
    (lights_library_entries m).length = m.tag_points.length := by
  constructor
  · simp [visual_scene_child_nodes, frame0_tag_points, hf]
  · simp [lights_library_entries]

/-- Witness for C10: `demoModel` has two tag-point names but a single frame-0
tag-point position; one child node is emitted, two library lights. -/
theorem tag_point_mismatch_truncates_witness :
    (visual_scene_child_nodes demoModel).length = 1 ∧
    (lights_library_entries demoModel).length = 2 := by
  have h := tag_point_mismatch_truncates demoModel demoFrame [demoFrame]
    rfl (by decide)
  exact ⟨by simpa using h.1, by simpa using h.2⟩

/-- The geometry list has one record per frame. -/
theorem length_write_meshes_geometries (name : String) (m : Model) :
    (write_meshes_geometries name m).length = m.frames.length := by
  simp [write_meshes_geometries]

/-- C4: the flattened index buffer is built once (`build_polygons`) and every
frame's geometry record carries an equal copy of it, so any two emitted
geometries of a model have identical `polygons`, same length, same values,
same order. -/
theorem polygons_shared_across_frames (name : String) (m : Model) (i j : Nat)
    (hi : i < (write_meshes_geometries name m).length)
    (hj : j < (write_meshes_geometries name m).length) :
    ((write_meshes_geometries name m).getD i default_geometry).polygons =
      build_polygons m ∧
    ((write_meshes_geometries name m).getD i default_geometry).polygons =
      ((write_meshes_geometries name m).getD j default_geometry).polygons := by
  have key : ∀ idx, idx < (write_meshes_geometries name m).length →
      ((write_meshes_geometries name m).getD idx default_geometry).polygons =
        build_polygons m := by
    intro idx hidx
    rw [List.getD_eq_getElem _ _ hidx]
    have hidx' : idx < m.frames.enum.length := by
      simpa [write_meshes_geometries] using hidx
    simp [write_meshes_geometries, frame_geometry]
  exact ⟨key i hi, (key i hi).trans (key j hj).symm⟩

/-- Witness for C4: in the two-frame `demoModel`, frame 0's and frame 1's
geometries carry the same index buffer. -/
theorem polygons_shared_across_frames_witness :
    ((write_meshes_geometries ("Scene_Root") demoModel).getD 0
        default_geometry).polygons =
      ((write_meshes_geometries ("Scene_Root") demoModel).getD 1
        default_geometry).polygons := by
  have h := polygons_shared_across_frames ("Scene_Root") demoModel 0 1
    (by rw [length_write_meshes_geometries]; decide)
    (by rw [length_write_meshes_geometries]; decide)
  exact h.2

/-- C5: in the `<p>` index stream every stored index is written three
consecutive times — positions `3k`, `3k + 1` and `3k + 2` of the stream all
hold index `k` of the geometry's buffer — so the `VERTEX`, `NORMAL` and
`TEXCOORD` channels of each slot receive the same value. -/
theorem p_indices_triples (g : Geometry) (k : Nat)
    (h : k < g.polygons.length) :
    (p_indices g.polygons).getD (3 * k) 0 = g.polygons.getD k 0 ∧
    (p_indices g.polygons).getD (3 * k + 1) 0 = g.polygons.getD k 0 ∧
    (p_indices g.polygons).getD (3 * k + 2) 0 = g.polygons.getD k 0 := by
  have key : ∀ (l : List Nat) (k : Nat), k < l.length →
      (p_indices l).getD (3 * k) 0 = l.getD k 0 ∧
      (p_indices l).getD (3 * k + 1) 0 = l.getD k 0 ∧
      (p_indices l).getD (3 * k + 2) 0 = l.getD k 0 := by
    intro l
    induction l with
    | nil => intro k hk; simp at hk
    | cons x xs ih =>
      intro k hk
      cases k with
      | zero => simp [p_indices]
      | succ k' =>
        have hk' : k' < xs.length := by simpa using hk
        have hrw : p_indices (x :: xs) = x :: x :: x :: p_indices xs := by
          simp [p_indices]
        have e0 : 3 * (k' + 1) = 3 * k' + 1 + 1 + 1 := by ring
        have e1 : 3 * (k' + 1) + 1 = 3 * k' + 1 + 1 + 1 + 1 := by ring
        have e2 : 3 * (k' + 1) + 2 = 3 * k' + 2 + 1 + 1 + 1 := by ring
        obtain ⟨ih0, ih1, ih2⟩ := ih k' hk'
        refine ⟨?_, ?_, ?_⟩
        · rw [hrw, e0]
          simpa [List.getD_cons_succ] using ih0
        · rw [hrw, e1]
          simpa [List.getD_cons_succ] using ih1
        · rw [hrw, e2]
          simpa [List.getD_cons_succ] using ih2
  exact key g.polygons k h

/-- Witness for C5: for a geometry with buffer `[5, 7]`, stream positions 3,
4 and 5 all hold index 1's value, 7. -/
theorem p_indices_triples_witness :
    (p_indices demoGeometry.polygons).getD (3 * 1) 0 = 7 ∧
    (p_indices demoGeometry.polygons).getD (3 * 1 + 1) 0 = 7 ∧
    (p_indices demoGeometry.polygons).getD (3 * 1 + 2) 0 = 7 := by
  have h := p_indices_triples demoGeometry 1 (by decide)
  have hv : demoGeometry.polygons.getD 1 0 = 7 := by decide
  exact ⟨h.1.trans hv, h.2.1.trans hv, h.2.2.trans hv⟩

/-- C6: for every frame and vertex `k` with texture coordinate `(u, v)`, the
emitted texture array of that frame's geometry holds `u` at position `2k`
and `1 - v` at position `2k + 1`: the V coordinate is flipped, U passed
through. -/
theorem mesh_map_flips_v (name : String) (m : Model) (idx : Nat) (fr : Frame)
    (k : Nat) (h : k < fr.vertices.length) :
    ((frame_geometry name m idx fr).mesh_map).getD (2 * k) 0 =
      (fr.vertices.getD k default_vertex).texture.1 ∧
    ((frame_geometry name m idx fr).mesh_map).getD (2 * k + 1) 0 =
      1 - (fr.vertices.getD k default_vertex).texture.2 := by
  have key : ∀ (l : List Vertex) (k : Nat), k < l.length →
      (l.flatMap (fun v => [v.texture.1, 1 - v.texture.2])).getD (2 * k) 0 =
        (l.getD k default_vertex).texture.1 ∧
      (l.flatMap (fun v => [v.texture.1, 1 - v.texture.2])).getD (2 * k + 1) 0 =
        1 - (l.getD k default_vertex).texture.2 := by
    intro l
    induction l with
    | nil => intro k hk; simp at hk
    | cons x xs ih =>
      intro k hk
      cases k with
      | zero => simp
      | succ k' =>
        have hk' : k' < xs.length := by simpa using hk
        have e0 : 2 * (k' + 1) = 2 * k' + 1 + 1 := by ring
        have e1 : 2 * (k' + 1) + 1 = 2 * k' + 1 + 1 + 1 := by ring
        obtain ⟨ih0, ih1⟩ := ih k' hk'
        constructor
        · rw [List.flatMap_cons, e0]
          simpa [List.getD_cons_succ] using ih0
        · rw [List.flatMap_cons, e1]
          simpa [List.getD_cons_succ] using ih1
  have hm : (frame_geometry name m idx fr).mesh_map =
      fr.vertices.flatMap (fun v => [v.texture.1, 1 - v.texture.2]) := rfl
  rw [hm]
  exact key fr.vertices k h

/-- Witness for C6: `demoVertex` has texture `(1/2, 1/4)`; the emitted array
holds `1/2` at position 0 and `3/4` at position 1. -/
theorem mesh_map_flips_v_witness :
    ((frame_geometry ("Scene_Root") demoModel 0 demoFrame).mesh_map).getD 0 0 =
      1 / 2 ∧
    ((frame_geometry ("Scene_Root") demoModel 0 demoFrame).mesh_map).getD 1 0 =
      3 / 4 := by
  have h := mesh_map_flips_v ("Scene_Root") demoModel 0 demoFrame 0 (by decide)
  have hu : (demoFrame.vertices.getD 0 default_vertex).texture.1 = 1 / 2 := rfl
  have hv : (demoFrame.vertices.getD 0 default_vertex).texture.2 = 1 / 4 := rfl
  constructor
  · have h0 := h.1
    rw [hu] at h0
    simpa using h0
  · have h1 := h.2
    rw [hv] at h1
    have : (1 : ℚ) - 1 / 4 = 3 / 4 := by norm_num
    rw [this] at h1
    simpa using h1

/-- C8: the geometry builder normalizes the vertex normal and then applies
the fixed –90°-about-X rotation; for every vertex with a nonzero normal the
emitted normal has squared magnitude exactly 1 in the idealized real
semantics, and the rotation itself preserves the squared magnitude of every
vector — it never re-scales. -/
theorem normal_magnitude_preserved (v : Vertex) (w : ℝ × ℝ × ℝ)
    (h : v.normal ≠ ((0 : ℚ), (0 : ℚ), (0 : ℚ))) :
    sqNorm (vertex_out_normal v) = 1 ∧ sqNorm (rot_point w) = sqNorm w := by
  have hrot : ∀ u : ℝ × ℝ × ℝ, sqNorm (rot_point u) = sqNorm u := by
    intro u
    simp only [sqNorm, rot_point]
    ring
  refine ⟨?_, hrot w⟩
  unfold vertex_out_normal
  rw [hrot]
  set u : ℝ × ℝ × ℝ :=
    ((v.normal.1 : ℝ), (v.normal.2.1 : ℝ), (v.normal.2.2 : ℝ)) with hu
  have hS0 : 0 ≤ sqNorm u := by
    simp only [sqNorm]
    positivity
  have hSne : sqNorm u ≠ 0 := by
    intro h0
    apply h
    simp only [sqNorm, hu] at h0
    have hs1 := sq_nonneg ((v.normal.1 : ℝ))
    have hs2 := sq_nonneg ((v.normal.2.1 : ℝ))
    have hs3 := sq_nonneg ((v.normal.2.2 : ℝ))
    have h1 : ((v.normal.1 : ℝ)) ^ 2 = 0 := by linarith
    have h2 : ((v.normal.2.1 : ℝ)) ^ 2 = 0 := by linarith
    have h3 : ((v.normal.2.2 : ℝ)) ^ 2 = 0 := by linarith
    have e1 : v.normal.1 = 0 := by
      have := pow_eq_zero_iff (n := 2) (by norm_num) |>.mp h1
      exact_mod_cast this
    have e2 : v.normal.2.1 = 0 := by
      have := pow_eq_zero_iff (n := 2) (by norm_num) |>.mp h2
      exact_mod_cast this
    have e3 : v.normal.2.2 = 0 := by
      have := pow_eq_zero_iff (n := 2) (by norm_num) |>.mp h3
      exact_mod_cast this
    calc v.normal = (v.normal.1, v.normal.2.1, v.normal.2.2) := rfl
      _ = ((0 : ℚ), (0 : ℚ), (0 : ℚ)) := by rw [e1, e2, e3]
  have hnorm : ∀ x : ℝ × ℝ × ℝ, sqNorm x ≠ 0 → sqNorm (normalize3 x) = 1 := by
    intro x hxne
    have hx0 : 0 ≤ sqNorm x := by
      simp only [sqNorm]
      positivity
    have hmx : Real.sqrt (sqNorm x) ^ 2 = sqNorm x := Real.sq_sqrt hx0
    have hstep : sqNorm (normalize3 x) = sqNorm x / Real.sqrt (sqNorm x) ^ 2 := by
      simp only [normalize3, sqNorm, div_pow, div_add_div_same]
    rw [hstep, hmx, div_self hxne]
  exact hnorm u hSne

/-- Witness for C8: the vertex with normal `(0, 0, 2)` yields an emitted
normal of squared magnitude 1, and the rotation leaves the squared magnitude
of `(1, 2, 3)` unchanged. -/
theorem normal_magnitude_preserved_witness :
    sqNorm (vertex_out_normal demoVertex) = 1 ∧
    sqNorm (rot_point ((1 : ℝ), (2 : ℝ), (3 : ℝ))) =
      sqNorm ((1 : ℝ), (2 : ℝ), (3 : ℝ)) :=
  normal_magnitude_preserved demoVertex ((1 : ℝ), (2 : ℝ), (3 : ℝ))
    (by decide)

/-- C9 (counterexample): not every floating-point value of the document is
written with 8 decimal digits: for `demoModel` the document contains floats
rendered with the default `{}` directive (the decoded light color of
`"light_255_0_0_1_2_3"` and the translate components of the child node). -/
theorem float_formats_not_all_fixed8 :
    ¬ ∀ f ∈ convert_float_formats ("Scene_Root") demoModel,
        f = FloatFmt.fixed8 := by
  intro hall
  have hmem : FloatFmt.display ∈ convert_float_formats ("Scene_Root") demoModel := by
    apply List.mem_append_right
    apply List.mem_append_left
    exact List.mem_flatMap.mpr ⟨("light_255_0_0_1_2_3"),
      (by decide : ("light_255_0_0_1_2_3") ∈ demoModel.tag_points),
      (by decide :
        FloatFmt.display ∈ light_float_formats ("light_255_0_0_1_2_3"))⟩
  exact absurd (hall FloatFmt.display hmem) (by decide)

/-- C9 (amended): only the geometry `float_array` values are written with 8
decimal digits (`{:.8}`); the decoded light color components and the
visual-scene translate components are written with the default `{}` float
formatting. -/
theorem float_formats_by_site (name : String) (m : Model) :
    (∀ f ∈ (write_meshes_geometries name m).flatMap geometry_float_formats,
      f = FloatFmt.fixed8) ∧
    (∀ f ∈ m.tag_points.flatMap light_float_formats, f = FloatFmt.display) ∧
    (∀ f ∈ translate_float_formats m, f = FloatFmt.display) := by
  refine ⟨?_, ?_, ?_⟩
  · intro f hf
    obtain ⟨g, _, hfg⟩ := List.mem_flatMap.mp hf
    exact List.eq_of_mem_replicate hfg
  · intro f hf
    obtain ⟨nm, _, hfn⟩ := List.mem_flatMap.mp hf
    unfold light_float_formats at hfn
    have heq : ([FloatFmt.display, FloatFmt.display, FloatFmt.display] :
        List FloatFmt) = List.replicate 3 FloatFmt.display := rfl
    split at hfn
    · split at hfn
      · exact List.eq_of_mem_replicate (heq ▸ hfn)
      · simp at hfn
    · simp at hfn
  · intro f hf
    obtain ⟨node, _, hfn⟩ := List.mem_flatMap.mp hf
    have heq : ([FloatFmt.display, FloatFmt.display, FloatFmt.display] :
        List FloatFmt) = List.replicate 3 FloatFmt.display := rfl
    exact List.eq_of_mem_replicate (heq ▸ hfn)

/-- Witness for the amended C9: in `demoModel`, the first float of the
geometry `float_array`s is `{:.8}`-formatted while the first float of the
light-color site and the first float of the translate site are
`{}`-formatted. -/
theorem float_formats_by_site_witness :
    ((write_meshes_geometries ("Scene_Root") demoModel).flatMap
        geometry_float_formats).getD 0 FloatFmt.display = FloatFmt.fixed8 ∧
    (demoModel.tag_points.flatMap light_float_formats).getD 0
        FloatFmt.fixed8 = FloatFmt.display ∧
    (translate_float_formats demoModel).getD 0 FloatFmt.fixed8 =
      FloatFmt.display := by
  have h := float_formats_by_site ("Scene_Root") demoModel
  refine ⟨?_, ?_, ?_⟩
  · have hlen : 0 < ((write_meshes_geometries ("Scene_Root")
        demoModel).flatMap geometry_float_formats).length := by decide
    rw [List.getD_eq_getElem _ _ hlen]
    exact h.1 _ (List.getElem_mem hlen)
  · have hlen : 0 <
        (demoModel.tag_points.flatMap light_float_formats).length := by decide
    rw [List.getD_eq_getElem _ _ hlen]
    exact h.2.1 _ (List.getElem_mem hlen)
  · have hlen : 0 < (translate_float_formats demoModel).length := by decide
    rw [List.getD_eq_getElem _ _ hlen]
    exact h.2.2 _ (List.getElem_mem hlen)

end Cemconv
